import Mathlib

/- Verification of the core of the `seo-content-analyzer` repository
(src/main.py): the text-analysis routine `analyze_content` and the
content-extraction routine `get_clean_content`.

Modelling conventions:
- Python strings are modelled as Lean `String` (a sequence of Unicode
  scalar values, matching Python's per-character view of `str`).
- Python character classes (`\w`, `str.lower`, `str.strip`) are modelled
  over ASCII, which covers every character class decision the program's
  fixed needles and the claims exercise.
- Python floats are modelled as exact rationals (`Rat`); every numeric
  value reached by the claims is exactly representable in binary floating
  point, so the idealization is faithful there. -/

/-! ## Python string primitives -/

/-- Whitespace removed by Python `str.strip()` (ASCII fragment). -/
def isPySpace (c : Char) : Bool :=
  c = ' ' || c = '\t' || c = '\n' || c = '\r' || c = '\x0b' || c = '\x0c'

/-- Python `str.strip()`: drop leading and trailing whitespace. -/
def pyStrip (s : String) : String :=
  ⟨((s.data.dropWhile isPySpace).reverse.dropWhile isPySpace).reverse⟩

/-- Python `str.lower()` (ASCII case folding). -/
def pyLower (s : String) : String :=
  ⟨s.data.map Char.toLower⟩

/-- One left-to-right scan of Python `str.count`: at each position either a
match of `needle` starts (count it and resume after it, skipping the
remaining `needle.length - 1` matched characters via the first argument) or
the scan advances one character.  This is Python's non-overlapping
substring count for a non-empty needle. -/
def countScan (needle : List Char) : Nat → List Char → Nat
  | _, [] => 0
  | k + 1, _ :: rest => countScan needle k rest
  | 0, c :: rest =>
    if needle.isPrefixOf (c :: rest) then
      1 + countScan needle (needle.length - 1) rest
    else
      countScan needle 0 rest

/-- Python `hay.count(needle)`: non-overlapping substring occurrences; for
the empty needle Python returns `len(hay) + 1`. -/
def pyCount (hay needle : String) : Nat :=
  match needle.data with
  | [] => hay.data.length + 1
  | n :: ns => countScan (n :: ns) 0 hay.data

/-- Python `needle in hay` (contiguous substring test), expressed through
the substring counter: a substring occurs iff its count is non-zero. -/
def pySubstr (needle hay : String) : Bool :=
  pyCount hay needle != 0

/-! ## The word-count regex `\b[\w'-]+\b` of src/main.py line 68 -/

/-- Python regex `\w` (ASCII fragment): letters, digits, underscore. -/
def isWordChar (c : Char) : Bool :=
  c.isAlphanum || c = '_'

/-- The character class `[\w'-]` of the word regex. -/
def isTokenChar (c : Char) : Bool :=
  isWordChar c || c = Char.ofNat 39 || c = '-'

/-- Word-character test on an optional character; a position outside the
string counts as a non-word character, exactly as `\b` treats the ends of
the subject string. -/
def wordOpt : Option Char → Bool
  | some c => isWordChar c
  | none => false

/-- The regex word boundary `\b` between an (optional) previous character
and an (optional) next character. -/
def boundaryB (a b : Option Char) : Bool :=
  wordOpt a != wordOpt b

/-- Backtracking step of matching `\b[\w'-]+\b`: given the greedy run of
`[\w'-]` characters and the character following the run, return the
largest length `j` (with `1 ≤ j ≤ run.length`) at which `\b` holds after
the first `j` run characters, or `0` when no length works (no match). -/
def matchEndGo (run : List Char) (next : Option Char) : Nat → Nat
  | 0 => 0
  | k + 1 =>
    let after :=
      match run.get? (k + 1) with
      | some d => some d
      | none => next
    if boundaryB (run.get? k) after then k + 1 else matchEndGo run next k

/-- Length of the match of `\b[\w'-]+\b` whose `[\w'-]+` part starts the
given greedy run (`0` when the attempt fails). -/
def matchEnd (run : List Char) (next : Option Char) : Nat :=
  matchEndGo run next run.length

/-- The scan loop of `re.findall(r"\b[\w'-]+\b", content)`, counting
matches.  `skip` consumes the remaining characters of a match already
counted; `prev` is the character before the current position (for `\b`).
At each position the engine attempts a match: the boundary must hold, the
greedy run of `[\w'-]` characters is taken, and the match end backtracks to
the largest prefix of the run ending at a boundary; on failure the scan
advances one character. -/
def wordScanSkip : Nat → Option Char → List Char → Nat
  | _, _, [] => 0
  | k + 1, _, c :: rest => wordScanSkip k (some c) rest
  | 0, prev, c :: rest =>
    if boundaryB prev (some c) then
      let run := (c :: rest).takeWhile isTokenChar
      let j := matchEnd run (((c :: rest).drop run.length).head?)
      if j = 0 then wordScanSkip 0 (some c) rest
      else 1 + wordScanSkip (j - 1) (some c) rest
    else
      wordScanSkip 0 (some c) rest

/-- `word_count` of src/main.py line 68-69:
`len(re.findall(r"\b[\w'-]+\b", content))`. -/
def wordCount (content : String) : Nat :=
  wordScanSkip 0 none content.data

/-! ## The sentence-count regex `[.!?]+` of src/main.py line 70 -/

/-- The character class `[.!?]`. -/
def isSentencePunct (c : Char) : Bool :=
  c = '.' || c = '!' || c = '?'

/-- The scan loop of `re.findall` for a pattern `cls+` over a character
class: at a matching character the greedy match consumes the whole maximal
run (counted once, the tail of the run consumed through `skip`), otherwise
the scan advances one character. -/
def runScanSkip (p : Char → Bool) : Nat → List Char → Nat
  | _, [] => 0
  | k + 1, _ :: rest => runScanSkip p k rest
  | 0, c :: rest =>
    if p c then 1 + runScanSkip p (((c :: rest).takeWhile p).length - 1) rest
    else runScanSkip p 0 rest

/-- `sentence_count` of src/main.py line 70:
`len(re.findall(r"[.!?]+", content))`. -/
def sentenceCount (content : String) : Nat :=
  runScanSkip isSentencePunct 0 content.data

/-- Specification-side counter for claim C8: the number of maximal runs of
characters satisfying `p`, counted as the number of run starts (a position
whose character satisfies `p` while the previous position, tracked by the
Boolean argument, does not). -/
def runStarts (p : Char → Bool) : Bool → List Char → Nat
  | _, [] => 0
  | prevIn, c :: rest =>
    (if p c && !prevIn then 1 else 0) + runStarts p (p c) rest

/-! ## The analyzer `analyze_content` of src/main.py lines 62-85 -/

/-- The density expression of src/main.py line 78:
`(instances / word_count * 100) if word_count > 0 else 0`.  The float value
`instances / word_count * 100` is the rational `(100·instances)/wc`,
written with `mkRat` so that it evaluates by kernel reduction; the lemma
`keywordDensity_eq_div` below restates it as the literal division. -/
def keywordDensity (instances wc : Nat) : Rat :=
  if 0 < wc then mkRat (100 * instances) wc else 0

/-- Python `f"{x:.2f}"` on the exact rational value: round `q·100` to an
integer (ties to even, as binary floating-point formatting does) and render
with exactly two digits after the point.  All arithmetic is on the
numerator and denominator so the definition evaluates by kernel reduction;
every density reached in the claims is an exact integer, where this
rendering agrees with CPython. -/
def fmtTwoDec (q : Rat) : String :=
  let num100 : Int := q.num * 100
  let d : Int := (q.den : Int)
  let n : Int := Int.fdiv num100 d
  let rem : Int := num100 - n * d
  let r : Int :=
    if d < 2 * rem then n + 1
    else if 2 * rem < d then n
    else if n % 2 = 0 then n else n + 1
  toString (r / 100) ++ "." ++ (if r % 100 < 10 then "0" else "") ++ toString (r % 100)

/-- One row appended to `results` in src/main.py lines 79-83, keeping both
the intermediate `density` value of line 78 and its rendered form of
line 82 (`f"{density:.2f}%"`). -/
structure KeywordRecord where
  keyword : String
  instances : Nat
  density : Rat
  densityStr : String
deriving DecidableEq

/-- The tuple returned by `analyze_content` (word count, sentence count,
keyword rows). -/
structure AnalysisSummary where
  word_count : Nat
  sentence_count : Nat
  results : List KeywordRecord
deriving DecidableEq

/-- The loop body of src/main.py lines 73-83 for one keyword. -/
def analyzeKeyword (content : String) (wc : Nat) (keyword : String) : KeywordRecord :=
  let kw := pyLower (pyStrip keyword)
  let instances := pyCount (pyLower content) kw
  let density := keywordDensity instances wc
  ⟨keyword, instances, density, fmtTwoDec density ++ "%"⟩

/-- `analyze_content` of src/main.py lines 62-85.  `if not content` is the
empty-string test (line 64). -/
def analyze_content (content : String) (keywords : List String) : AnalysisSummary :=
  if content = "" then ⟨0, 0, []⟩
  else
    let wc := wordCount content
    ⟨wc, sentenceCount content, keywords.map (analyzeKeyword content wc)⟩

/-! ## Helper lemmas -/

/-- The density value of line 78 is `instances / word_count × 100` when
`word_count > 0` (division is exact rational division) and `0` otherwise. -/
theorem keywordDensity_eq_div (i w : Nat) :
    keywordDensity i w = if 0 < w then (i : Rat) / (w : Rat) * 100 else 0 := by
  unfold keywordDensity
  split
  · rw [Rat.mkRat_eq_div]
    push_cast
    ring
  · rfl

/-- Inside a run (previous character matched), no further run starts are
counted until the run is left: counting from `true` over `l` equals
counting from `false` over `l` with its leading matching characters
dropped. -/
theorem runStarts_true_dropWhile (p : Char → Bool) (l : List Char) :
    runStarts p true l = runStarts p false (l.dropWhile p) := by
  induction l with
  | nil => rfl
  | cons c r ih =>
    cases hp : p c
    case false => simp [runStarts, List.dropWhile_cons, hp]
    case true => simp [runStarts, List.dropWhile_cons, hp, ih]

/-- The `re.findall` scan for a class-run pattern counts exactly the
maximal runs: the scan (started idle, and started with a whole leading run
left to skip) agrees with the run-start counter. -/
theorem runScanSkip_eq_runStarts (p : Char → Bool) (l : List Char) :
    runScanSkip p 0 l = runStarts p false l ∧
      runScanSkip p (l.takeWhile p).length l = runStarts p false (l.dropWhile p) := by
  induction l with
  | nil => exact ⟨rfl, rfl⟩
  | cons c r ih =>
    obtain ⟨ih1, ih2⟩ := ih
    cases hp : p c
    case false =>
      have h0 : runScanSkip p 0 (c :: r) = runScanSkip p 0 r := by
        simp [runScanSkip, hp]
      have ht : ((c :: r).takeWhile p).length = 0 := by
        simp [List.takeWhile_cons, hp]
      have hd : (c :: r).dropWhile p = c :: r := by
        simp [List.dropWhile_cons, hp]
      constructor
      · rw [h0, ih1]
        simp [runStarts, hp]
      · rw [ht, hd, h0, ih1]
        simp [runStarts, hp]
    case true =>
      have h0 : runScanSkip p 0 (c :: r) =
          1 + runScanSkip p (r.takeWhile p).length r := by
        simp [runScanSkip, hp, List.takeWhile_cons]
      have ht : ((c :: r).takeWhile p).length = (r.takeWhile p).length + 1 := by
        simp [List.takeWhile_cons, hp]
      have hd : (c :: r).dropWhile p = r.dropWhile p := by
        simp [List.dropWhile_cons, hp]
      constructor
      · rw [h0, ih2]
        simp [runStarts, hp, runStarts_true_dropWhile]
      · rw [ht, hd]
        show runScanSkip p (r.takeWhile p).length r = _
        exact ih2

/-- The `keyword` field of a result row is the keyword as entered. -/
theorem map_keyword (T : String) (wc : Nat) (K : List String) :
    (K.map (analyzeKeyword T wc)).map KeywordRecord.keyword = K := by
  induction K with
  | nil => rfl
  | cons k ks ih => simp [analyzeKeyword, ih]

/-- The `density` field of a result row is the line-78 density of its
`instances` field. -/
theorem analyzeKeyword_density (content : String) (wc : Nat) (kw : String) :
    (analyzeKeyword content wc kw).density
      = keywordDensity (analyzeKeyword content wc kw).instances wc := rfl

/-- The line-78 density is never negative. -/
theorem keywordDensity_nonneg (i w : Nat) : 0 ≤ keywordDensity i w := by
  rw [keywordDensity_eq_div]
  split
  · positivity
  · exact le_refl 0

/-! ## The DOM model for `get_clean_content` (src/main.py lines 20-59)

A parsed document is a forest of nodes; an element carries its (lowercased,
as the HTML parser produces them) tag name, its `class` attribute and its
`style` attribute — the only attributes the code consults — and its
children.  The `class` attribute is kept as the raw attribute string; the
needles matched against it contain no whitespace, so substring matching on
the whole string coincides with BeautifulSoup's per-token matching of
multi-valued class attributes. -/

inductive HNode : Type where
  | text (s : String)
  | elem (tag : String) (classAttr : Option String) (styleAttr : Option String)
      (children : List HNode)

/-- The exclusion list of src/main.py line 42, exactly as written.
`soup([...])` is `find_all` with a list of names, and a name filter in
BeautifulSoup matches the literal tag name of an element — so the entries
"div.footer" and "div.navbar" match only elements whose tag name is
literally "div.footer"/"div.navbar", which an HTML parser never produces;
they are not CSS selectors here. -/
def removedTags : List String :=
  ["nav", "header", "footer", "aside", "script", "style", "form", "button",
    "div.footer", "div.navbar"]

mutual

/-- Destructive removal (`decompose`) of every element whose tag name is in
the exclusion list, together with its whole subtree (line 42-43). -/
def pruneNode : HNode → Option HNode
  | .text s => some (.text s)
  | .elem tag cls sty ch =>
    if removedTags.contains tag then none
    else some (.elem tag cls sty (pruneNodes ch))

/-- Pruning of a forest, preserving document order. -/
def pruneNodes : List HNode → List HNode
  | [] => []
  | n :: ns =>
    match pruneNode n with
    | none => pruneNodes ns
    | some m => m :: pruneNodes ns

end

mutual

/-- BeautifulSoup `find(t)` on one node: the first element with tag name
`t` in document order (the node itself, then its descendants). -/
def findTagNode (t : String) : HNode → Option HNode
  | .text _ => none
  | .elem tag cls sty ch =>
    if tag = t then some (.elem tag cls sty ch) else findTagList t ch

/-- BeautifulSoup `find(t)` on a forest, in document order. -/
def findTagList (t : String) : List HNode → Option HNode
  | [] => none
  | n :: ns =>
    match findTagNode t n with
    | some r => some r
    | none => findTagList t ns

end

/-- The class filter of src/main.py line 46:
`lambda x: x and ('content' in x.lower() or 'main' in x.lower() or
'article' in x.lower())`; an absent class attribute is passed as `None`,
which the `x and` guard rejects (an empty class string is likewise
rejected, and contains no needle anyway). -/
def classMatchesContent : Option String → Bool
  | none => false
  | some s =>
    pySubstr "content" (pyLower s) || pySubstr "main" (pyLower s) ||
      pySubstr "article" (pyLower s)

mutual

/-- BeautifulSoup `find('div', class_=...)` on one node, document order. -/
def findDivNode : HNode → Option HNode
  | .text _ => none
  | .elem tag cls sty ch =>
    if tag = "div" && classMatchesContent cls then some (.elem tag cls sty ch)
    else findDivNodes ch

/-- BeautifulSoup `find('div', class_=...)` on a forest, document order. -/
def findDivNodes : List HNode → Option HNode
  | [] => none
  | n :: ns =>
    match findDivNode n with
    | some r => some r
    | none => findDivNodes ns

end

mutual

/-- The text collection of src/main.py lines 50-54 under one node whose
parent element has tag `ptag` and style attribute `psty`: a text node is
kept unless its immediate parent is a script/style tag or carries an
inline style containing "display: none" or "visibility: hidden"
(substring tests, exactly as the code performs them). -/
def nodeTexts (ptag : String) (psty : Option String) : HNode → List String
  | .text s =>
    if ptag = "script" || ptag = "style" then []
    else
      match psty with
      | none => [s]
      | some st =>
        if !pySubstr "display: none" st && !pySubstr "visibility: hidden" st then [s]
        else []
  | .elem tag _ sty ch => listTexts tag sty ch

/-- Text collection over a forest of siblings, in document order. -/
def listTexts (ptag : String) (psty : Option String) : List HNode → List String
  | [] => []
  | n :: ns => nodeTexts ptag psty n ++ listTexts ptag psty ns

end

/-- Lines 50-55 applied to the selected content root: collect the visible
text nodes, strip each, drop the empty ones, and join with single spaces.
`find` only ever returns elements, so the text case is vacuous. -/
def renderRoot : HNode → String
  | .text _ => ""
  | .elem tag _ sty ch =>
    String.intercalate " " (((listTexts tag sty ch).map pyStrip).filter (fun t => t != ""))

/-- Python `or` over `find` results (line 46): `find` returns a Tag or
`None`; `None` is falsy and a BeautifulSoup Tag is always truthy
(`Tag.__bool__` returns `True`), so the chain yields the first non-`None`
result. -/
def pyOrTag (a b : Option HNode) : Option HNode :=
  match a with
  | some t => some t
  | none => b

/-- The pure extraction core of `get_clean_content` (src/main.py lines
42-56), applied to the parsed document forest: prune the exclusion list,
select the content root (`main`, else `article`, else a content-classed
`div`), and render its visible text; `if main_content:` is the truthiness
test on the selection, `None` yielding the empty string of line 56.  The
`try/except` of lines 22 and 57-59 only guards the browser/driver I/O that
produces the parsed document; the transformation itself is total. -/
def get_clean_content (doc : List HNode) : String :=
  let soup := pruneNodes doc
  let mc := pyOrTag (findTagList "main" soup)
    (pyOrTag (findTagList "article" soup) (findDivNodes soup))
  match mc with
  | some root => renderRoot root
  | none => ""

/-! ## Claims about the analyzer -/

/-- Claim C1, amended: for the empty text, `analyze_content` returns
word_count = 0, sentence_count = 0, and the empty record list — no
per-keyword records at all — whatever the supplied keywords (src/main.py
lines 64-65 return `0, 0, []` before the keyword loop is reached). -/
theorem analyze_empty_text (keywords : List String) :
    analyze_content "" keywords = ⟨0, 0, []⟩ := rfl

/-- Claim C1 as stated is false: for the empty text and the non-empty
keyword list `["anything"]`, the result carries no record for the keyword
(the record list is empty instead of having one zero-count record per
keyword). -/
theorem analyze_empty_text_counterexample :
    (analyze_content "" ["anything"]).results = [] ∧
      (analyze_content "" ["anything"]).results.length ≠ ["anything"].length := by
  decide

/-- Claim C4: `analyze("SEO is great. SEO helps.", ["SEO"])` returns
word_count = 5, sentence_count = 2, and a single record for "SEO" with
instances = 2 and density 40 rendered as "40.00%". -/
theorem analyze_seo_example :
    analyze_content "SEO is great. SEO helps." ["SEO"] =
      ⟨5, 2, [⟨"SEO", 2, 40, "40.00%"⟩]⟩ := by decide

/-- Claim C5: for every text and keyword list, every computed density is
non-negative, equals instances / word_count × 100 when word_count is
positive, and is 0 whenever word_count = 0 regardless of instances — the
division by zero is guarded by the conditional of line 78, and the model is
a total function, so no error is possible. -/
theorem density_guarded (T : String) (K : List String) (r : KeywordRecord)
    (hr : r ∈ (analyze_content T K).results) :
    0 ≤ r.density ∧
      (0 < (analyze_content T K).word_count →
        r.density = (r.instances : Rat) / ((analyze_content T K).word_count : Rat) * 100) ∧
      ((analyze_content T K).word_count = 0 → r.density = 0) := by
  by_cases hT : T = ""
  · rw [hT] at hr
    simp [analyze_content] at hr
  · simp only [analyze_content, if_neg hT] at hr ⊢
    obtain ⟨kw, _, rfl⟩ := List.mem_map.1 hr
    refine ⟨keywordDensity_nonneg _ _, fun hw => ?_, fun h0 => ?_⟩
    · rw [analyzeKeyword_density, keywordDensity_eq_div, if_pos hw]
    · rw [analyzeKeyword_density, keywordDensity_eq_div, if_neg (by omega)]

/-- Witness for C5 at text "hello world" and keyword "hello". -/
theorem density_guarded_witness :
    0 ≤ (analyzeKeyword "hello world" (wordCount "hello world") "hello").density :=
  (density_guarded "hello world" ["hello"]
    (analyzeKeyword "hello world" (wordCount "hello world") "hello") (by decide)).1

/-- Claim C7: for non-empty text, `analyze_content` returns exactly one
record per supplied keyword, in the order supplied (duplicates included),
and each record displays the keyword exactly as entered. -/
theorem keyword_records_match_input (T : String) (K : List String) (hT : T ≠ "") :
    (analyze_content T K).results.map KeywordRecord.keyword = K ∧
      (analyze_content T K).results.length = K.length := by
  simp only [analyze_content, if_neg hT]
  exact ⟨map_keyword T (wordCount T) K, List.length_map _ _⟩

/-- Witness for C7 at text "x" and the duplicate-carrying keyword list
["a", "b", "a"]. -/
theorem keyword_records_match_input_witness :
    (analyze_content "x" ["a", "b", "a"]).results.map KeywordRecord.keyword
        = ["a", "b", "a"] ∧
      (analyze_content "x" ["a", "b", "a"]).results.length = ["a", "b", "a"].length :=
  keyword_records_match_input "x" ["a", "b", "a"] (by decide)

/-- Claim C8: for non-empty text, sentence_count equals the number of
maximal runs of consecutive characters from `.`, `!`, `?` (counted by
`runStarts`, the run-start counter), so "..." or "?!" contribute exactly
one each. -/
theorem sentence_count_maximal_runs (T : String) (K : List String) (hT : T ≠ "") :
    (analyze_content T K).sentence_count = runStarts isSentencePunct false T.data := by
  simp only [analyze_content, if_neg hT]
  exact (runScanSkip_eq_runStarts isSentencePunct T.data).1

/-- Witness for C8 at a text where "..." and "?!" each count once:
three sentence terminators in "Wait... what?! Done.". -/
theorem sentence_count_maximal_runs_witness :
    (analyze_content "Wait... what?! Done." []).sentence_count
        = runStarts isSentencePunct false "Wait... what?! Done.".data ∧
      (analyze_content "Wait... what?! Done." []).sentence_count = 3 :=
  ⟨sentence_count_maximal_runs "Wait... what?! Done." [] (by decide), by decide⟩

/-- Claim C9: `analyze_content` is deterministic — identical text and
keyword arguments yield identical word counts, sentence counts and keyword
records; it is modelled as a pure function on immutable values, which is
exactly the Python routine's behaviour (it only reads its arguments and
builds a fresh result list). -/
theorem analyze_deterministic (T₁ T₂ : String) (K₁ K₂ : List String)
    (hT : T₁ = T₂) (hK : K₁ = K₂) :
    analyze_content T₁ K₁ = analyze_content T₂ K₂ := by
  rw [hT, hK]

/-- Witness for C9 at a concrete repeated call. -/
theorem analyze_deterministic_witness :
    analyze_content "SEO rocks." ["SEO"] = analyze_content "SEO rocks." ["SEO"] :=
  analyze_deterministic "SEO rocks." "SEO rocks." ["SEO"] ["SEO"] rfl rfl

/-- Claim C10: for non-empty text, a keyword that trims to the empty
string is counted with Python's empty-substring semantics: its record is
present with instances = len(T) + 1, and when the word count is positive
its density is (len(T) + 1) / word_count × 100 — which exceeds 100
whenever len(T) + 1 > word_count, as the witness shows. -/
theorem empty_keyword_counts (T : String) (K : List String) (kw : String)
    (hT : T ≠ "") (hkw : pyStrip kw = "") (hmem : kw ∈ K) :
    analyzeKeyword T (wordCount T) kw ∈ (analyze_content T K).results ∧
      (analyzeKeyword T (wordCount T) kw).instances = T.data.length + 1 ∧
      (0 < wordCount T →
        (analyzeKeyword T (wordCount T) kw).density =
          ((T.data.length + 1 : Nat) : Rat) / (wordCount T : Rat) * 100) := by
  have hI : pyCount (pyLower T) (pyLower (pyStrip kw)) = T.data.length + 1 := by
    rw [hkw]
    show (T.data.map Char.toLower).length + 1 = T.data.length + 1
    rw [List.length_map]
  refine ⟨?_, hI, fun hw => ?_⟩
  · simp only [analyze_content, if_neg hT]
    exact List.mem_map_of_mem _ hmem
  · have hd : (analyzeKeyword T (wordCount T) kw).density
        = keywordDensity (T.data.length + 1) (wordCount T) := by
      rw [analyzeKeyword_density]
      show keywordDensity (pyCount (pyLower T) (pyLower (pyStrip kw))) (wordCount T) = _
      rw [hI]
    rw [hd, keywordDensity_eq_div, if_pos hw]

/-- Witness for C10 at text "Hi" (one word, two characters) and keyword
" ": instances = 3 and density = 300 % > 100 %. -/
theorem empty_keyword_counts_witness :
    (analyzeKeyword "Hi" (wordCount "Hi") " " ∈ (analyze_content "Hi" [" "]).results ∧
      (analyzeKeyword "Hi" (wordCount "Hi") " ").instances = "Hi".data.length + 1 ∧
      (0 < wordCount "Hi" →
        (analyzeKeyword "Hi" (wordCount "Hi") " ").density =
          (("Hi".data.length + 1 : Nat) : Rat) / (wordCount "Hi" : Rat) * 100)) ∧
      (100 : Rat) < (analyzeKeyword "Hi" (wordCount "Hi") " ").density :=
  ⟨empty_keyword_counts "Hi" [" "] " " (by decide) (by decide) (by decide), by decide⟩

/-! ## Claims about the extractor -/

/-- A document whose main content contains a `<div class="footer">` with
text, next to ordinary text: `<html><body><main><div class="footer">
FOOTERTEXT</div>hello</main></body></html>`. -/
def footerClassDoc : List HNode :=
  [.elem "html" none none
    [.elem "body" none none
      [.elem "main" none none
        [.elem "div" (some "footer") none [.text "FOOTERTEXT"], .text "hello"]]]]

/-- Claim C2 is contradicted by the code: on `footerClassDoc` the element
whose class attribute is exactly "footer" is NOT removed — `find_all` with
a name list matches literal tag names, so the entries "div.footer" and
"div.navbar" of line 42 never match — and its text "FOOTERTEXT" appears in
the extraction output. -/
theorem footer_class_div_text_survives :
    get_clean_content footerClassDoc = "FOOTERTEXT hello" ∧
      pySubstr "FOOTERTEXT" (get_clean_content footerClassDoc) = true := by
  decide

/-- Claim C3: the content root is selected in strict priority order — the
first `main` element; failing that the first `article` element; failing
that the first `div` whose class attribute contains (case-insensitively)
"content", "main" or "article"; and when none match the extraction returns
the empty string rather than failing.  Selection happens on the pruned
document. -/
theorem content_root_priority (doc : List HNode) :
    (∀ m, findTagList "main" (pruneNodes doc) = some m →
        get_clean_content doc = renderRoot m) ∧
      (findTagList "main" (pruneNodes doc) = none →
        ∀ a, findTagList "article" (pruneNodes doc) = some a →
          get_clean_content doc = renderRoot a) ∧
      (findTagList "main" (pruneNodes doc) = none →
        findTagList "article" (pruneNodes doc) = none →
          ∀ d, findDivNodes (pruneNodes doc) = some d →
            get_clean_content doc = renderRoot d) ∧
      (findTagList "main" (pruneNodes doc) = none →
        findTagList "article" (pruneNodes doc) = none →
        findDivNodes (pruneNodes doc) = none →
        get_clean_content doc = "") := by
  refine ⟨fun m hm => ?_, fun h1 a ha => ?_, fun h1 h2 d hd => ?_, fun h1 h2 h3 => ?_⟩
  · simp [get_clean_content, pyOrTag, hm]
  · simp [get_clean_content, pyOrTag, h1, ha]
  · simp [get_clean_content, pyOrTag, h1, h2, hd]
  · simp [get_clean_content, pyOrTag, h1, h2, h3]

/-- Witness for C3: a document with a `main` element yields exactly that
element's rendering. -/
theorem content_root_priority_witness :
    get_clean_content [.elem "html" none none [.elem "main" none none [.text "hi"]]]
      = renderRoot (.elem "main" none none [.text "hi"]) :=
  (content_root_priority
    [.elem "html" none none [.elem "main" none none [.text "hi"]]]).1
    (.elem "main" none none [.text "hi"]) rfl

/-- Claim C6: the extraction core is a total function into strings — it is
defined for every input document (never raises, never returns a null) and
every result is either the empty string (absence of content) or the
rendered text of some selected root. -/
theorem extractor_total (doc : List HNode) :
    get_clean_content doc = "" ∨ ∃ root, get_clean_content doc = renderRoot root := by
  cases h : pyOrTag (findTagList "main" (pruneNodes doc))
      (pyOrTag (findTagList "article" (pruneNodes doc)) (findDivNodes (pruneNodes doc))) with
  | none =>
    left
    simp [get_clean_content, h]
  | some root =>
    right
    exact ⟨root, by simp [get_clean_content, h]⟩
example : pyCount "aaaa" "aa" = 2 := by decide
example : pyCount "Hi" "" = 3 := by decide
